import Mathlib

/-!
# File system calls of `kern/syscall/file_syscalls.c`

A shallow embedding of `sys_open`, `sys_read`, `sys_write` and `sys_close`.

* The kernel state is passed explicitly: the current process's file table
  (`curproc->p_filetable`), the heap of `struct openfile` objects the table slots
  point to, and a trace of the calls made to locks, to the user-copy layer and to
  the storage layer, in program order.
* `int *retval` is an out-parameter: every system call takes the value stored
  there before the call and returns the value stored there afterwards.
* The user-copy layer, the storage layer and the constant `ENOFLG` are not
  defined by the file and are the fields of `Env`.
* `filetable_*`, `openfile_*` and `uio_uinit` live in files that are not part of
  the sources; they are modelled from the specification.
-/

namespace FileSyscalls

/-! ## Constants of `kern/fcntl.h` and `kern/errno.h` -/

/-- Modelled from the spec: `kern/fcntl.h` is missing; access mode `ReadOnly`. -/
def O_RDONLY : Int := 0
/-- Modelled from the spec: `kern/fcntl.h` is missing; access mode `WriteOnly`. -/
def O_WRONLY : Int := 1
/-- Modelled from the spec: `kern/fcntl.h` is missing; access mode `ReadWrite`. -/
def O_RDWR : Int := 2
/-- Modelled from the spec: `kern/fcntl.h` is missing; mask of the access-mode bits. -/
def O_ACCMODE : Int := 3
/-- Modelled from the spec: `kern/fcntl.h` is missing; the `Create` bit. -/
def O_CREAT : Int := 4
/-- Modelled from the spec: `kern/fcntl.h` is missing; the `Exclusive` bit. -/
def O_EXCL : Int := 8
/-- Modelled from the spec: `kern/fcntl.h` is missing; the `Truncate` bit. -/
def O_TRUNC : Int := 16
/-- Modelled from the spec: `kern/fcntl.h` is missing; the `Append` bit. -/
def O_APPEND : Int := 32
/-- Modelled from the spec: `kern/fcntl.h` is missing; the reserved
no-controlling-terminal bit. -/
def O_NOCTTY : Int := 64

/-- Modelled from the spec: `kern/errno.h` is missing; `InvalidArgument`. -/
def EINVAL : Int := 8
/-- Modelled from the spec: `kern/errno.h` is missing; `TooManyOpenFiles`. -/
def EMFILE : Int := 28
/-- Modelled from the spec: `kern/errno.h` is missing; `BadFileDescriptor`. -/
def EBADF : Int := 30

/-! ## Data model -/

/-- Modelled from the spec: `struct openfile` of the missing `openfile.h`, the
spec's OpenFile: storage handle, access mode, shared offset and reference count.
The offset lock is identified with the object that owns it. -/
structure openfile where
  of_vnode : Nat
  of_accmode : Int
  of_offset : Int
  of_refcount : Int
deriving DecidableEq, Repr

/-- Direction of a transfer, `enum uio_rw`. -/
inductive uio_rw where
  | UIO_READ
  | UIO_WRITE
deriving DecidableEq, Repr

/-- Modelled from the spec: `struct uio` of the missing `uio.h`, reduced to the
fields `file_syscalls.c` reads: the user buffer, the offset at which the storage
operation starts and the number of bytes still to transfer. -/
structure uio where
  uio_ubuf : Nat
  uio_offset : Int
  uio_resid : Nat
  uio_rw : uio_rw
deriving DecidableEq, Repr

/-- One entry of the trace: a call that leaves `file_syscalls.c`, or the store to
`of_offset`. Locks and offsets are named by the address of their `openfile`. -/
inductive Event where
  | lock_acquire (file : Nat)
  | lock_release (file : Nat)
  | VOP_READ (vnode : Nat) (u : uio)
  | VOP_WRITE (vnode : Nat) (u : uio)
  | set_of_offset (file : Nat) (offset : Int)
  | copyinstr (upath : Nat)
  | vfs_open (path : String) (flags : Int) (mode : Nat)
  | vfs_close (vnode : Nat)
deriving DecidableEq, Repr

/-- The part of the kernel the four system calls touch. A table slot is `none`
(`NULL`) or the heap address of an `openfile`; a heap cell is `none` once freed. -/
structure Kernel where
  p_filetable : List (Option Nat)
  heap : List (Option openfile)
  trace : List Event
deriving DecidableEq, Repr

/-- What `file_syscalls.c` uses and does not define: the custom error code
`ENOFLG`, `NAME_MAX`, `copyinstr`, and the storage layer (`vfs_open` behind
`openfile_open`, the position of end-of-file, and the `VOP_READ` and `VOP_WRITE`
operations of a vnode). Each collaborator returns its `int` result (0 is success)
next to what it wrote through its out-pointer: the kernel copy of the path, the
vnode, the updated `struct uio`. -/
structure Env where
  ENOFLG : Int
  NAME_MAX : Nat
  copyinstr : Nat → Nat → Int × String
  vfs_open : String → Int → Nat → Int × Nat
  vfs_eof : Nat → Int
  VOP_READ : Nat → uio → Int × uio
  VOP_WRITE : Nat → uio → Int × uio

/-- Why the kernel stopped instead of returning to the caller. -/
inductive Halt where
  | kassert
  | bad_pointer
deriving DecidableEq, Repr

/-- Result of a kernel function that can stop the kernel: it returns `a` in state
`k`, or the kernel stops in state `k`. -/
inductive Outcome (α : Type) where
  | ret (a : α) (k : Kernel)
  | halt (h : Halt) (k : Kernel)
deriving DecidableEq, Repr

/-- The kernel state an outcome ends in. -/
def Outcome.kernel {α : Type} : Outcome α → Kernel
  | .ret _ k => k
  | .halt _ k => k

/-- Append one event to the trace. -/
def Kernel.emit (k : Kernel) (e : Event) : Kernel :=
  { k with trace := k.trace ++ [e] }

/-- The object a pointer refers to, if it is live. -/
def Kernel.deref (k : Kernel) (file : Nat) : Option openfile :=
  (k.heap.getD file none)

/-- Content of slot `fd` of a table: `none` when `fd` is out of range or the slot
is empty. -/
def slot (ft : List (Option Nat)) (fd : Int) : Option Nat :=
  if 0 ≤ fd ∧ fd < ft.length then ft.getD fd.toNat none else none

/-- Conversion of a `size_t` value to `int` on the 32-bit target. -/
def int_of_size_t (n : Int) : Int :=
  if n % 2 ^ 32 < 2 ^ 31 then n % 2 ^ 32 else n % 2 ^ 32 - 2 ^ 32

/-- The 32 bits of an `int`, two's complement. -/
def bits32 (a : Int) : Nat := (a % 2 ^ 32).toNat

/-- The C operator `&` on two `int`s. -/
def int_and (a b : Int) : Int := int_of_size_t ((bits32 a &&& bits32 b : Nat) : Int)

/-- The C operator `|` on two `int`s. -/
def int_or (a b : Int) : Int := int_of_size_t ((bits32 a ||| bits32 b : Nat) : Int)

/-! ## Collaborators modelled from the specification -/

/-- Modelled from the spec: `filetable_okfd` of the missing `filetable.c`, the
spec's `isValid`: "range- and occupancy-check without side effects". -/
def filetable_okfd (ft : List (Option Nat)) (fd : Int) : Bool :=
  (slot ft fd).isSome

/-- Modelled from the spec: `filetable_get` of the missing `filetable.c`, the
spec's `get`: fails with `BadFileDescriptor` if the slot is out of range or
empty, otherwise returns the reference. -/
def filetable_get (ft : List (Option Nat)) (fd : Int) : Except Int Nat :=
  match slot ft fd with
  | none => .error EBADF
  | some file => .ok file

/-- Index of the lowest-numbered empty slot. -/
def lowestEmpty : List (Option Nat) → Option Nat
  | [] => none
  | none :: _ => some 0
  | some _ :: rest => (lowestEmpty rest).map (· + 1)

/-- Modelled from the spec: `filetable_place` of the missing `filetable.c`, the
spec's `place`: finds the lowest-numbered empty slot; if none exists fails with
`TooManyOpenFiles`; otherwise stores the reference and returns the slot index. -/
def filetable_place (ft : List (Option Nat)) (file : Nat) :
    Except Int Nat × List (Option Nat) :=
  match lowestEmpty ft with
  | none => (.error EMFILE, ft)
  | some fd => (.ok fd, ft.set fd (some file))

/-- Modelled from the spec: `filetable_placeat` of the missing `filetable.c`, the
spec's `placeAt`: fails with `BadFileDescriptor` if the descriptor number is out
of range; otherwise swaps the slot's content with the given value and returns
what previously occupied the slot. -/
def filetable_placeat (ft : List (Option Nat)) (newfile : Option Nat) (fd : Int) :
    Except Int (Option Nat) × List (Option Nat) :=
  if 0 ≤ fd ∧ fd < ft.length then
    (.ok (ft.getD fd.toNat none), ft.set fd.toNat newfile)
  else (.error EBADF, ft)

/-- Modelled from the spec: `openfile_open` of the missing `openfile.c`, the spec's
`create`: delegates to the storage layer; on success returns a new OpenFile with
`refCount = 1`, offset 0 (or end-of-file if append-mode is requested) and the
access mode taken from the access-mode bits of the flags; on failure returns the
error the storage layer reports. The new object is stored at the first unused
heap address. -/
def openfile_open (env : Env) (k : Kernel) (filename : String) (openflags : Int)
    (mode : Nat) : Except Int Nat × Kernel :=
  let k1 := k.emit (.vfs_open filename openflags mode)
  match env.vfs_open filename openflags mode with
  | (result, vn) =>
    if result ≠ 0 then (.error result, k1)
    else
      let file : openfile :=
        { of_vnode := vn
          of_accmode := int_and openflags O_ACCMODE
          of_offset := if int_and openflags O_APPEND ≠ 0 then env.vfs_eof vn else 0
          of_refcount := 1 }
      (.ok k1.heap.length, { k1 with heap := k1.heap ++ [some file] })

/-- Modelled from the spec: `openfile_decref` of the missing `openfile.c`, the
spec's `decrementRef`: decrements `refCount`; if the result is 0, releases the
storage handle and frees the object. A `NULL` or dangling pointer cannot be
dereferenced and stops the kernel. -/
def openfile_decref (k : Kernel) (file : Option Nat) : Outcome Unit :=
  match file with
  | none => .halt .bad_pointer k
  | some p =>
    match k.deref p with
    | none => .halt .bad_pointer k
    | some f =>
      if f.of_refcount - 1 = 0 then
        .ret () { (k.emit (.vfs_close f.of_vnode)) with heap := k.heap.set p none }
      else
        .ret () { k with heap := k.heap.set p (some { f with of_refcount := f.of_refcount - 1 }) }

/-- Modelled from the spec: `uio_uinit` of the missing `uio.c`; it prepares the
arguments of the spec's storage call `read(storageHandle, offset, buffer, maxLen)`
(or `write`): the user buffer `ubuf`, `len` bytes, starting at offset `pos`. The
`struct iovec` only carries `ubuf` and `len` and is folded into the result. -/
def uio_uinit (ubuf : Nat) (len : Nat) (pos : Int) (rw : uio_rw) : uio :=
  { uio_ubuf := ubuf, uio_offset := pos, uio_resid := len, uio_rw := rw }

/-! ## The system calls -/

/-- The function `sys_open` (lines 27-85). Returns the `int` result, the content of
`*retval` and the state. The `kmalloc` of `kpath` is assumed to succeed. -/
def sys_open (env : Env) (k : Kernel) (upath : Nat) (flags : Int) (mode : Nat)
    (retval : Int) : Int × Int × Kernel :=
  let allflags : Int :=
    int_or O_ACCMODE (int_or O_CREAT (int_or O_EXCL
      (int_or O_TRUNC (int_or O_APPEND O_NOCTTY))))
  if int_and flags allflags ≠ 0 then
    let k1 := k.emit (.copyinstr upath)
    match env.copyinstr upath env.NAME_MAX with
    | (result, kpath) =>
      if result ≠ 0 then (result, retval, k1)
      else if flags > O_NOCTTY then (-1, EINVAL, k1)
      else
        match openfile_open env k1 kpath flags mode with
        | (.error result, k2) => (result, retval, k2)
        | (.ok file, k2) =>
          match filetable_place k2.p_filetable file with
          | (.error result, _) => (result, retval, k2)
          | (.ok fd, ft) => (0, (fd : Int), { k2 with p_filetable := ft })
  else (env.ENOFLG, retval, k)

/-- The function `sys_read` (lines 90-142). Returns the `int` result and the content
of `*retval`. -/
def sys_read (env : Env) (k : Kernel) (fd : Int) (buf : Nat) (size : Nat)
    (retval : Int) : Outcome (Int × Int) :=
  if !filetable_okfd k.p_filetable fd then .ret (EBADF, retval) k
  else
    match filetable_get k.p_filetable fd with
    | .error result => .ret (result, retval) k
    | .ok file =>
      match k.deref file with
      | none => .halt .bad_pointer k
      | some f =>
        let k1 := k.emit (.lock_acquire file)
        if f.of_accmode = O_WRONLY then
          .ret (EBADF, retval) (k1.emit (.lock_release file))
        else
          let userio := uio_uinit buf size 0 .UIO_READ
          let k2 := k1.emit (.VOP_READ f.of_vnode userio)
          match env.VOP_READ f.of_vnode userio with
          | (result, userio1) =>
            if result ≠ 0 then .ret (result, retval) (k2.emit (.lock_release file))
            else
              let k3 : Kernel :=
                { (k2.emit (.set_of_offset file userio1.uio_offset)) with
                  heap := k2.heap.set file (some { f with of_offset := userio1.uio_offset }) }
              .ret (0, int_of_size_t ((size : Int) - userio1.uio_resid))
                (k3.emit (.lock_release file))

/-- The function `sys_write` (lines 148-199). Returns the `int` result and the
content of `*retval`. -/
def sys_write (env : Env) (k : Kernel) (fd : Int) (buf : Nat) (size : Nat)
    (retval : Int) : Outcome (Int × Int) :=
  if !filetable_okfd k.p_filetable fd then .ret (EBADF, retval) k
  else
    match filetable_get k.p_filetable fd with
    | .error result => .ret (result, retval) k
    | .ok file =>
      match k.deref file with
      | none => .halt .bad_pointer k
      | some f =>
        let k1 := k.emit (.lock_acquire file)
        if f.of_accmode = O_RDONLY then
          .ret (EBADF, retval) (k1.emit (.lock_release file))
        else
          let userio := uio_uinit buf size 0 .UIO_WRITE
          let k2 := k1.emit (.VOP_WRITE f.of_vnode userio)
          match env.VOP_WRITE f.of_vnode userio with
          | (result, userio1) =>
            if result ≠ 0 then .ret (result, retval) (k2.emit (.lock_release file))
            else
              let k3 : Kernel :=
                { (k2.emit (.set_of_offset file userio1.uio_offset)) with
                  heap := k2.heap.set file (some { f with of_offset := userio1.uio_offset }) }
              .ret (0, int_of_size_t (userio1.uio_resid : Int))
                (k3.emit (.lock_release file))

/-- The function `sys_close` (lines 201-221). The value `filetable_placeat` returns
is not looked at and `result` keeps its initial 0. A failed `KASSERT` stops the
kernel. Had `filetable_placeat` failed, `oldfile` would be read uninitialised: the
model stops there (after `filetable_okfd` the descriptor is in range and that
branch is not taken). -/
def sys_close (k : Kernel) (fd : Int) : Outcome Int :=
  let result : Int := 0
  if !filetable_okfd k.p_filetable fd then .ret EBADF k
  else
    match filetable_placeat k.p_filetable none fd with
    | (.error _, ft) => .halt .bad_pointer { k with p_filetable := ft }
    | (.ok oldfile, ft) =>
      let k1 : Kernel := { k with p_filetable := ft }
      if result ≠ 0 then .ret result k1
      else if oldfile ≠ none then .halt .kassert k1
      else
        match openfile_decref k1 oldfile with
        | .halt h k2 => .halt h k2
        | .ret _ k2 => .ret 0 k2

/-! ## Sample environment and states -/

/-- A storage layer that opens every path as vnode 7 when the flags have no bit
outside the seven known ones, fails with `EINVAL` otherwise, and transfers up to
three bytes per read or write. -/
def env0 : Env where
  ENOFLG := 99
  NAME_MAX := 255
  copyinstr := fun _ _ => (0, "f")
  vfs_open := fun _ flags _ => if 0 ≤ flags ∧ flags < 128 then (0, 7) else (EINVAL, 0)
  vfs_eof := fun _ => 0
  VOP_READ := fun _ u =>
    (0, { u with uio_offset := u.uio_offset + min 3 u.uio_resid,
                 uio_resid := u.uio_resid - min 3 u.uio_resid })
  VOP_WRITE := fun _ u =>
    (0, { u with uio_offset := u.uio_offset + min 3 u.uio_resid,
                 uio_resid := u.uio_resid - min 3 u.uio_resid })

/-- One open file at descriptor 0, opened read-write, at offset 5; descriptor 1 is
free. -/
def k0 : Kernel where
  p_filetable := [some 0, none]
  heap := [some { of_vnode := 7, of_accmode := O_RDWR, of_offset := 5, of_refcount := 1 }]
  trace := []

/-- A table of capacity 1 whose only slot is occupied. -/
def kFull : Kernel where
  p_filetable := [some 0]
  heap := [some { of_vnode := 7, of_accmode := O_RDWR, of_offset := 5, of_refcount := 1 }]
  trace := []

/-- One file opened write-only at descriptor 0 and one opened read-only at
descriptor 1. -/
def kModes : Kernel where
  p_filetable := [some 0, some 1, none]
  heap := [some { of_vnode := 7, of_accmode := O_WRONLY, of_offset := 5, of_refcount := 1 },
           some { of_vnode := 8, of_accmode := O_RDONLY, of_offset := 6, of_refcount := 1 }]
  trace := []

/-! ## Lock discipline of one call -/

/-- The lock discipline of one call, checked along the events it emitted, starting
with the lock `held` (`none`: not held): a lock is acquired only when none is
held and released only by its holder, storage reads and writes and the store to
`of_offset` happen only under the lock, and no lock is held at the end. -/
def lockProtocol : Option Nat → List Event → Bool
  | held, [] => held.isNone
  | held, .lock_acquire file :: es => held.isNone && lockProtocol (some file) es
  | held, .lock_release file :: es => (held == some file) && lockProtocol none es
  | held, .VOP_READ _ _ :: es => held.isSome && lockProtocol held es
  | held, .VOP_WRITE _ _ :: es => held.isSome && lockProtocol held es
  | held, .set_of_offset file _ :: es => (held == some file) && lockProtocol held es
  | held, _ :: es => lockProtocol held es

/-- Number of `lock_acquire` events of a trace. -/
def acquisitions : List Event → Nat
  | [] => 0
  | .lock_acquire _ :: es => acquisitions es + 1
  | _ :: es => acquisitions es

/-- Number of `lock_release` events of a trace. -/
def releases : List Event → Nat
  | [] => 0
  | .lock_release _ :: es => releases es + 1
  | _ :: es => releases es

/-! ## Theorems -/

theorem filetable_okfd_of_slot {ft : List (Option Nat)} {fd : Int} {file : Nat}
    (h : slot ft fd = some file) : filetable_okfd ft fd = true := by
  simp [filetable_okfd, h]

theorem filetable_get_of_slot {ft : List (Option Nat)} {fd : Int} {file : Nat}
    (h : slot ft fd = some file) : filetable_get ft fd = .ok file := by
  simp [filetable_get, h]

/-- C5: on an occupied descriptor, `sys_read` of a file opened `O_WRONLY` and
`sys_write` of a file opened `O_RDONLY` return `EBADF`, leave `*retval`, the table
and the heap (hence the offset) as they were, and emit nothing but the acquire and
the release of the offset lock: no storage read or write is issued. -/
theorem sys_read_wronly_sys_write_rdonly_ebadf (env : Env) (k : Kernel) (fd : Int)
    (buf size : Nat) (retval : Int) (file : Nat) (f : openfile)
    (hslot : slot k.p_filetable fd = some file) (hf : k.deref file = some f) :
    (f.of_accmode = O_WRONLY →
      sys_read env k fd buf size retval =
        .ret (EBADF, retval)
          { k with trace := k.trace ++ [.lock_acquire file, .lock_release file] }) ∧
    (f.of_accmode = O_RDONLY →
      sys_write env k fd buf size retval =
        .ret (EBADF, retval)
          { k with trace := k.trace ++ [.lock_acquire file, .lock_release file] }) := by
  constructor
  · intro hm
    simp [sys_read, filetable_okfd_of_slot hslot, filetable_get_of_slot hslot, hf, hm,
      Kernel.emit]
  · intro hm
    simp [sys_write, filetable_okfd_of_slot hslot, filetable_get_of_slot hslot, hf, hm,
      Kernel.emit]

/-- C5 at concrete inputs: descriptor 0 of `kModes` is write-only and is read,
descriptor 1 is read-only and is written. -/
theorem sys_read_wronly_sys_write_rdonly_ebadf_witness :
    sys_read env0 kModes 0 100 10 0 =
        .ret (EBADF, 0)
          { kModes with trace := [.lock_acquire 0, .lock_release 0] } ∧
    sys_write env0 kModes 1 100 10 0 =
        .ret (EBADF, 0)
          { kModes with trace := [.lock_acquire 1, .lock_release 1] } :=
  ⟨(sys_read_wronly_sys_write_rdonly_ebadf env0 kModes 0 100 10 0 0
      { of_vnode := 7, of_accmode := O_WRONLY, of_offset := 5, of_refcount := 1 }
      (by decide) (by decide)).1 rfl,
   (sys_read_wronly_sys_write_rdonly_ebadf env0 kModes 1 100 10 0 1
      { of_vnode := 8, of_accmode := O_RDONLY, of_offset := 6, of_refcount := 1 }
      (by decide) (by decide)).2 rfl⟩

/-- C4: for a descriptor number that is out of range or whose slot is empty,
`sys_close` returns `EBADF` and the whole state (every slot of the table, every
OpenFile and its reference count, the trace) is what it was before the call. -/
theorem sys_close_invalid_fd (k : Kernel) (fd : Int)
    (h : ¬ (0 ≤ fd ∧ fd < k.p_filetable.length) ∨
      k.p_filetable.getD fd.toNat none = none) :
    sys_close k fd = .ret EBADF k := by
  have hs : slot k.p_filetable fd = none := by
    unfold slot
    split
    · rcases h with h | h
      · contradiction
      · exact h
    · rfl
  simp [sys_close, filetable_okfd, hs]

/-- C4 at concrete inputs: descriptor 1 of `k0` is in range and empty. -/
theorem sys_close_invalid_fd_witness :
    k0.p_filetable.getD (1 : Int).toNat none = none ∧ sys_close k0 1 = .ret EBADF k0 :=
  ⟨by decide, sys_close_invalid_fd k0 1 (Or.inr (by decide))⟩

theorem filetable_place_error_table (ft : List (Option Nat)) (file : Nat) (e : Int)
    (ft1 : List (Option Nat)) (h : filetable_place ft file = (.error e, ft1)) :
    ft1 = ft := by
  unfold filetable_place at h
  split at h
  · simp at h
    exact h.2.symm
  · simp at h

theorem openfile_open_table (env : Env) (k : Kernel) (filename : String)
    (openflags : Int) (mode : Nat) :
    (openfile_open env k filename openflags mode).2.p_filetable = k.p_filetable := by
  unfold openfile_open
  split
  split <;> simp [Kernel.emit]

/-- C8: whenever `sys_open` returns a non-zero result, whatever the path, the flags,
the mode and the behaviour of `copyinstr` and of the storage layer, the file table
is exactly the table before the call. -/
theorem sys_open_failure_keeps_table (env : Env) (k : Kernel) (upath : Nat)
    (flags : Int) (mode : Nat) (retval : Int)
    (h : (sys_open env k upath flags mode retval).1 ≠ 0) :
    (sys_open env k upath flags mode retval).2.2.p_filetable = k.p_filetable := by
  generalize hr : sys_open env k upath flags mode retval = r at h ⊢
  unfold sys_open at hr
  rcases hc : env.copyinstr upath env.NAME_MAX with ⟨result, kpath⟩
  rw [hc] at hr
  have hopen := openfile_open_table env (k.emit (.copyinstr upath)) kpath flags mode
  simp only at hr
  split_ifs at hr with hA hB hC
  · subst hr
    simp [Kernel.emit]
  · subst hr
    simp [Kernel.emit]
  · rcases ho : openfile_open env (k.emit (.copyinstr upath)) kpath flags mode with ⟨r1, k2⟩
    rw [ho] at hr hopen
    cases r1 with
    | error e =>
      subst hr
      simpa [Kernel.emit] using hopen
    | ok file =>
      simp only at hr
      rcases hp : filetable_place k2.p_filetable file with ⟨r2, ft⟩
      rw [hp] at hr
      cases r2 with
      | error e =>
        subst hr
        simpa [Kernel.emit] using hopen
      | ok fd =>
        subst hr
        simp at h
  · subst hr
    rfl

/-- C8 at a concrete input: flags 129 are refused with result -1. -/
theorem sys_open_failure_keeps_table_witness :
    (sys_open env0 k0 0 129 0 0).1 ≠ 0 ∧
    (sys_open env0 k0 0 129 0 0).2.2.p_filetable = k0.p_filetable :=
  ⟨by decide, sys_open_failure_keeps_table env0 k0 0 129 0 0 (by decide)⟩

/-- What `sys_open` does with flags 0 in general, whatever the path and the storage
layer: `flags & allflags` is 0, so the result is `ENOFLG`; no path is copied, no
storage open is called, and `*retval` and the whole state, the table included, are
as they were. -/
theorem sys_open_flags_zero (env : Env) (k : Kernel) (upath : Nat) (mode : Nat)
    (retval : Int) :
    sys_open env k upath 0 mode retval = (env.ENOFLG, retval, k) := by
  have h : int_and 0 (int_or O_ACCMODE (int_or O_CREAT (int_or O_EXCL
      (int_or O_TRUNC (int_or O_APPEND O_NOCTTY))))) = 0 := by decide
  simp [sys_open, h]

/-- C9 on the code, with flags `O_RDONLY` (0), the copyable path of `env0` and its
storage layer, which resolves that path with flags 0, on `k0`, whose descriptor 1
is free: `sys_open` takes the `ENOFLG` branch, calls no storage open, places nothing
in the table and stores no descriptor through `retval`. With flags `O_WRONLY` the
same call opens the file and returns descriptor 1. -/
theorem sys_open_rdonly_not_opened :
    env0.copyinstr 0 env0.NAME_MAX = (0, "f") ∧
    env0.vfs_open "f" O_RDONLY 0 = (0, 7) ∧
    sys_open env0 k0 0 O_RDONLY 0 0 = (env0.ENOFLG, 0, k0) ∧
    Event.vfs_open "f" O_RDONLY 0 ∉ (sys_open env0 k0 0 O_RDONLY 0 0).2.2.trace ∧
    slot (sys_open env0 k0 0 O_RDONLY 0 0).2.2.p_filetable 1 = none ∧
    sys_open env0 k0 0 O_WRONLY 0 0 =
      (0, 1,
        { p_filetable := [some 0, some 1]
          heap := [some { of_vnode := 7, of_accmode := O_RDWR, of_offset := 5,
                          of_refcount := 1 },
                   some { of_vnode := 7, of_accmode := O_WRONLY, of_offset := 0,
                          of_refcount := 1 }]
          trace := [.copyinstr 0, .vfs_open "f" O_WRONLY 0] }) := by
  decide

/-- C10: for every input and every behaviour of the storage layer, the events one
call of `sys_read` or of `sys_write` adds to the trace obey the lock discipline
(`lockProtocol`: storage reads and writes and the store to `of_offset` only under
the lock, no lock held at the end), the offset lock is acquired at most once, and
it is released as often as it is acquired. -/
theorem sys_read_sys_write_lock_discipline (env : Env) (k : Kernel) (fd : Int)
    (buf size : Nat) (retval : Int) :
    (∃ tr, (sys_read env k fd buf size retval).kernel.trace = k.trace ++ tr ∧
      lockProtocol none tr = true ∧ acquisitions tr ≤ 1 ∧
      releases tr = acquisitions tr) ∧
    (∃ tr, (sys_write env k fd buf size retval).kernel.trace = k.trace ++ tr ∧
      lockProtocol none tr = true ∧ acquisitions tr ≤ 1 ∧
      releases tr = acquisitions tr) := by
  constructor
  · generalize hr : sys_read env k fd buf size retval = r
    unfold sys_read at hr
    split_ifs at hr with h1
    · subst hr
      exact ⟨[], by simp [Outcome.kernel], rfl, by decide, rfl⟩
    · split at hr
      · subst hr
        exact ⟨[], by simp [Outcome.kernel], rfl, by decide, rfl⟩
      · rename_i file _
        split at hr
        · subst hr
          exact ⟨[], by simp [Outcome.kernel], rfl, by decide, rfl⟩
        · rename_i f _
          simp only at hr
          split_ifs at hr with h2 h3
          · subst hr
            exact ⟨[.lock_acquire file, .lock_release file],
              by simp [Outcome.kernel, Kernel.emit],
              by simp [lockProtocol], by simp [acquisitions],
              by simp [acquisitions, releases]⟩
          · subst hr
            exact ⟨[.lock_acquire file,
                .VOP_READ f.of_vnode (uio_uinit buf size 0 .UIO_READ),
                .lock_release file],
              by simp [Outcome.kernel, Kernel.emit],
              by simp [lockProtocol], by simp [acquisitions],
              by simp [acquisitions, releases]⟩
          · subst hr
            exact ⟨[.lock_acquire file,
                .VOP_READ f.of_vnode (uio_uinit buf size 0 .UIO_READ),
                .set_of_offset file
                  (env.VOP_READ f.of_vnode (uio_uinit buf size 0 .UIO_READ)).2.uio_offset,
                .lock_release file],
              by simp [Outcome.kernel, Kernel.emit],
              by simp [lockProtocol], by simp [acquisitions],
              by simp [acquisitions, releases]⟩
  · generalize hr : sys_write env k fd buf size retval = r
    unfold sys_write at hr
    split_ifs at hr with h1
    · subst hr
      exact ⟨[], by simp [Outcome.kernel], rfl, by decide, rfl⟩
    · split at hr
      · subst hr
        exact ⟨[], by simp [Outcome.kernel], rfl, by decide, rfl⟩
      · rename_i file _
        split at hr
        · subst hr
          exact ⟨[], by simp [Outcome.kernel], rfl, by decide, rfl⟩
        · rename_i f _
          simp only at hr
          split_ifs at hr with h2 h3
          · subst hr
            exact ⟨[.lock_acquire file, .lock_release file],
              by simp [Outcome.kernel, Kernel.emit],
              by simp [lockProtocol], by simp [acquisitions],
              by simp [acquisitions, releases]⟩
          · subst hr
            exact ⟨[.lock_acquire file,
                .VOP_WRITE f.of_vnode (uio_uinit buf size 0 .UIO_WRITE),
                .lock_release file],
              by simp [Outcome.kernel, Kernel.emit],
              by simp [lockProtocol], by simp [acquisitions],
              by simp [acquisitions, releases]⟩
          · subst hr
            exact ⟨[.lock_acquire file,
                .VOP_WRITE f.of_vnode (uio_uinit buf size 0 .UIO_WRITE),
                .set_of_offset file
                  (env.VOP_WRITE f.of_vnode (uio_uinit buf size 0 .UIO_WRITE)).2.uio_offset,
                .lock_release file],
              by simp [Outcome.kernel, Kernel.emit],
              by simp [lockProtocol], by simp [acquisitions],
              by simp [acquisitions, releases]⟩

/-- What a successful `sys_read` does in general: the storage read is issued with
the `uio` built at position 0, whatever `of_offset` holds, and `of_offset` is
overwritten with the offset the storage layer left in that `uio`. -/
theorem sys_read_success (env : Env) (k : Kernel) (fd : Int) (buf size : Nat)
    (retval : Int) (file : Nat) (f : openfile) (u1 : uio)
    (hslot : slot k.p_filetable fd = some file) (hf : k.deref file = some f)
    (hm : f.of_accmode ≠ O_WRONLY)
    (hv : env.VOP_READ f.of_vnode (uio_uinit buf size 0 .UIO_READ) = (0, u1)) :
    sys_read env k fd buf size retval =
      .ret (0, int_of_size_t ((size : Int) - u1.uio_resid))
        { k with
          heap := k.heap.set file (some { f with of_offset := u1.uio_offset })
          trace := k.trace ++ [.lock_acquire file,
            .VOP_READ f.of_vnode (uio_uinit buf size 0 .UIO_READ),
            .set_of_offset file u1.uio_offset, .lock_release file] } := by
  generalize hr : sys_read env k fd buf size retval = r
  unfold sys_read at hr
  rw [filetable_okfd_of_slot hslot, filetable_get_of_slot hslot] at hr
  simp only [hf, Bool.not_true, Bool.false_eq_true, if_false, if_neg hm] at hr
  simp only [hv] at hr
  subst hr
  simp [Kernel.emit]

/-- What a successful `sys_write` does in general: the storage write is issued with
the `uio` built at position 0, `of_offset` is overwritten with the offset the
storage layer left in that `uio`, and `*retval` receives the residual count. -/
theorem sys_write_success (env : Env) (k : Kernel) (fd : Int) (buf size : Nat)
    (retval : Int) (file : Nat) (f : openfile) (u1 : uio)
    (hslot : slot k.p_filetable fd = some file) (hf : k.deref file = some f)
    (hm : f.of_accmode ≠ O_RDONLY)
    (hv : env.VOP_WRITE f.of_vnode (uio_uinit buf size 0 .UIO_WRITE) = (0, u1)) :
    sys_write env k fd buf size retval =
      .ret (0, int_of_size_t (u1.uio_resid : Int))
        { k with
          heap := k.heap.set file (some { f with of_offset := u1.uio_offset })
          trace := k.trace ++ [.lock_acquire file,
            .VOP_WRITE f.of_vnode (uio_uinit buf size 0 .UIO_WRITE),
            .set_of_offset file u1.uio_offset, .lock_release file] } := by
  generalize hr : sys_write env k fd buf size retval = r
  unfold sys_write at hr
  rw [filetable_okfd_of_slot hslot, filetable_get_of_slot hslot] at hr
  simp only [hf, Bool.not_true, Bool.false_eq_true, if_false, if_neg hm] at hr
  simp only [hv] at hr
  subst hr
  simp [Kernel.emit]

/-- What `sys_close` does on every occupied descriptor: the slot is emptied and
`KASSERT(oldfile == NULL)` fails; heap and trace are untouched. -/
theorem sys_close_occupied_halts (k : Kernel) (fd : Int) (file : Nat)
    (hslot : slot k.p_filetable fd = some file) :
    sys_close k fd =
      .halt .kassert { k with p_filetable := k.p_filetable.set fd.toNat none } := by
  have hrange : 0 ≤ fd ∧ fd < k.p_filetable.length := by
    by_contra hn
    simp [slot, hn] at hslot
  have hget : k.p_filetable.getD fd.toNat none = some file := by
    simpa [slot, hrange] using hslot
  generalize hr : sys_close k fd = r
  unfold sys_close at hr
  rw [filetable_okfd_of_slot hslot] at hr
  unfold filetable_placeat at hr
  rw [if_pos hrange, hget] at hr
  subst hr
  simp

/-- C1 on the code, at descriptor 0 of `k0` (read-write, offset 5) with a storage
read that transfers 3 of the 10 bytes asked for: the storage read is issued at
offset 0, not 5, and the offset is left at 3, not 8; the result is 0 and the byte
count 3. -/
theorem sys_read_ignores_offset :
    k0.deref 0 =
      some { of_vnode := 7, of_accmode := O_RDWR, of_offset := 5, of_refcount := 1 } ∧
    sys_read env0 k0 0 100 10 0 =
      .ret (0, 3)
        { p_filetable := [some 0, none]
          heap := [some { of_vnode := 7, of_accmode := O_RDWR, of_offset := 3,
                          of_refcount := 1 }]
          trace := [.lock_acquire 0,
            .VOP_READ 7 { uio_ubuf := 100, uio_offset := 0, uio_resid := 10,
                          uio_rw := .UIO_READ },
            .set_of_offset 0 3, .lock_release 0] } := by
  decide

/-- C2 on the code, at descriptor 0 of `k0` (read-write, offset 5) with a storage
write that writes 3 of the 10 bytes given: the byte count returned is 7, the bytes
not written, and the offset is left at 3, not 8; the write is issued at offset
0. -/
theorem sys_write_returns_residual :
    k0.deref 0 =
      some { of_vnode := 7, of_accmode := O_RDWR, of_offset := 5, of_refcount := 1 } ∧
    sys_write env0 k0 0 100 10 0 =
      .ret (0, 7)
        { p_filetable := [some 0, none]
          heap := [some { of_vnode := 7, of_accmode := O_RDWR, of_offset := 3,
                          of_refcount := 1 }]
          trace := [.lock_acquire 0,
            .VOP_WRITE 7 { uio_ubuf := 100, uio_offset := 0, uio_resid := 10,
                           uio_rw := .UIO_WRITE },
            .set_of_offset 0 3, .lock_release 0] } := by
  decide

/-- C3 on the code, at the occupied descriptor 0 of `k0`: `sys_close` empties the
slot and then fails `KASSERT(oldfile == NULL)`; it does not return, the reference
count of the file is still 1 and its storage handle is not released. -/
theorem sys_close_occupied_trips_kassert :
    slot k0.p_filetable 0 = some 0 ∧
    sys_close k0 0 =
      .halt .kassert
        { p_filetable := [none, none]
          heap := [some { of_vnode := 7, of_accmode := O_RDWR, of_offset := 5,
                          of_refcount := 1 }]
          trace := [] } := by
  decide

/-- C6 on the code. Flags 129 (bit 128 is outside the allowed set): the result is
-1, which is not `EINVAL`; `EINVAL` is stored through `retval`. Flags -1: the
storage open is called with flags -1. Flags 128: the result is `ENOFLG`. -/
theorem sys_open_unsupported_flags :
    sys_open env0 k0 0 129 0 0 = (-1, EINVAL, k0.emit (.copyinstr 0)) ∧
    (-1 : Int) ≠ EINVAL ∧
    sys_open env0 k0 0 (-1) 0 0 =
      (EINVAL, 0, (k0.emit (.copyinstr 0)).emit (.vfs_open "f" (-1) 0)) ∧
    sys_open env0 k0 0 128 0 0 = (env0.ENOFLG, 0, k0) := by
  decide

/-- C7 on the code, with the full table of `kFull` and flags `O_WRONLY`: `sys_open`
returns `EMFILE` and leaves the table as it was, but the OpenFile created for the
attempt stays on the heap with reference count 1, referenced by no slot, and its
storage handle is not released (the trace has no `vfs_close`). -/
theorem sys_open_table_full_leaks :
    lowestEmpty kFull.p_filetable = none ∧
    sys_open env0 kFull 0 O_WRONLY 0 0 =
      (EMFILE, 0,
        { p_filetable := [some 0]
          heap := [some { of_vnode := 7, of_accmode := O_RDWR, of_offset := 5,
                          of_refcount := 1 },
                   some { of_vnode := 7, of_accmode := O_WRONLY, of_offset := 0,
                          of_refcount := 1 }]
          trace := [.copyinstr 0, .vfs_open "f" O_WRONLY 0] }) := by
  decide

end FileSyscalls
